import Mathlib

/-!
Verification development for the Multi-Org Integration Platform sync pipeline.

The definitions below are a shallow embedding of the two backend service files
of the repository:

* src/backend/services/integrationService.js - batch sync engine (performSync,
  processBatch, createBatches), the field mapper (applyFieldMappings,
  applyTransformation and the transformer helper functions), and
  applyConflictResolution;
* src/backend/services/aiService.js - the similarity scorer
  (calculateFieldSimilarity, calculateLevenshteinDistance) and the conflict
  resolver (resolveConflicts, resolveIndividualConflict,
  resolveHighPriorityField, initializeConflictResolutionRules).

JavaScript scalar values are modelled by the inductive type JVal; a thrown
exception is modelled by the error case of Except.  Machine floats are
modelled by exact rationals; the decimal roundings performed by the source
(Math.round(x*100)/100 and toFixed(2)) are modelled by round-half-up on the
exact rational.  Wall-clock data (timestamps, processing times, delays) is
not modelled.
-/

namespace MultiOrgSync

/-- Model of a JavaScript scalar value as it flows through the pipeline:
a string, a finite number, a boolean, null, undefined, or NaN. -/
inductive JVal where
  | str (s : String)
  | num (q : ℚ)
  | bool (b : Bool)
  | null
  | undef
  | nan
deriving DecidableEq

/-- JavaScript truthiness: empty string, 0, false, null, undefined and NaN
are falsy, everything else is truthy. -/
def JVal.truthy : JVal → Bool
  | .str s => !(s == "")
  | .num q => !(q == 0)
  | .bool b => b
  | .null => false
  | .undef => false
  | .nan => false

/-- A value is nullish when it is null or undefined (the values excluded by a
loose `!= null` comparison in the source). -/
def JVal.isNullish : JVal → Bool
  | .null => true
  | .undef => true
  | _ => false

/-- The JavaScript `a || b` operator on values. -/
def jsOr (a b : JVal) : JVal := if a.truthy then a else b

/-- ASCII lower-casing of one character.  The source uses
String.prototype.toLowerCase, which is Unicode aware; all field names and
aliases in the repository are ASCII, so the ASCII mapping is faithful there. -/
def lowerChar (c : Char) : Char :=
  if 65 ≤ c.toNat && c.toNat ≤ 90 then Char.ofNat (c.toNat + 32) else c

/-- Model of s.toLowerCase(). -/
def lowerStr (s : String) : String := (s.toList.map lowerChar).asString

/-- Does the second list occur at the head of the first?  Helper for the
substring test. -/
def startsWithL : List Char → List Char → Bool
  | [], _ => true
  | _ :: _, [] => false
  | p :: ps, c :: cs => p == c && startsWithL ps cs

/-- Does the list cs contain pat as a contiguous run?  Helper for the
substring test. -/
def containsL : List Char → List Char → Bool
  | [], pat => startsWithL pat []
  | c :: cs, pat => startsWithL pat (c :: cs) || containsL cs pat

/-- Model of s.includes(sub): sub occurs as a substring of s. -/
def jsIncludes (s sub : String) : Bool := containsL s.toList sub.toList

/-- Decimal digit value of a list of digit characters, most significant
first. -/
def digitsVal (cs : List Char) : Nat := cs.foldl (fun n c => n * 10 + (c.toNat - 48)) 0

/-- Parse a nonempty all-digit character list as a natural number. -/
def parseDigits (cs : List Char) : Option Nat :=
  if cs ≠ [] && cs.all Char.isDigit then some (digitsVal cs) else none

/-- Model of the JavaScript string-to-number coercion Number(s), restricted
to optionally signed integer literals (the only string shapes the verified
claims exercise); other strings coerce to NaN (none).  The empty or
all-whitespace string coerces to 0. -/
def jsStringToNumber (s : String) : Option ℚ :=
  let t := (s.toList.dropWhile Char.isWhitespace).reverse.dropWhile Char.isWhitespace |>.reverse
  if t = [] then some 0
  else match t with
    | '-' :: rest => (parseDigits rest).map (fun n => -(n : ℚ))
    | '+' :: rest => (parseDigits rest).map (fun n => (n : ℚ))
    | cs => (parseDigits cs).map (fun n => (n : ℚ))

/-- The JavaScript numeric coercion of a value; none models NaN. -/
def jsToNumber : JVal → Option ℚ
  | .num q => some q
  | .nan => none
  | .bool b => some (if b then 1 else 0)
  | .null => some 0
  | .undef => none
  | .str s => jsStringToNumber s

/-- Lexicographic order on character lists by code point, modelling the
relational comparison of two JavaScript strings. -/
def listLtChars : List Char → List Char → Bool
  | [], [] => false
  | [], _ :: _ => true
  | _ :: _, [] => false
  | a :: as, b :: bs => a.toNat < b.toNat || (a == b && listLtChars as bs)

/-- The JavaScript `a > b` comparison on values: string-to-string compares
lexicographically, every other combination coerces to numbers, and any NaN
makes the comparison false.  In particular undefined > undefined is false. -/
def jsGt (a b : JVal) : Bool :=
  match a, b with
  | .str x, .str y => listLtChars y.toList x.toList
  | a, b =>
    match jsToNumber a, jsToNumber b with
    | some x, some y => decide (y < x)
    | _, _ => false

/-- Math.max on two values: NaN if either coerces to NaN. -/
def jsMax (a b : JVal) : JVal :=
  match jsToNumber a, jsToNumber b with
  | some x, some y => .num (max x y)
  | _, _ => .nan

/-- The string a template literal interpolates for a value. -/
def JVal.toJsString : JVal → String
  | .str s => s
  | .num q => toString q
  | .bool b => if b then "true" else "false"
  | .null => "null"
  | .undef => "undefined"
  | .nan => "NaN"

/-- Round a rational to two decimal places, half up: this models both
Math.round(x * 100) / 100 and x.toFixed(2) from the source, evaluated on the
exact rational value. -/
def round2 (q : ℚ) : ℚ := ((⌊q * 100 + 1 / 2⌋ : ℤ) : ℚ) / 100

/-! ### Transformer functions (integrationService.js, formatPhone through normalizeName)

Each transformer is embedded as a function into Except String JVal: an error
result models a thrown exception (for example calling .replace on a number). -/

/-- Embedding of formatPhone: falsy input is returned as is; on a string the
non-digits are stripped and a 10 digit or 1-leading 11 digit number is
formatted, otherwise the input is returned unchanged; on a truthy non-string
the .replace call throws a TypeError. -/
def formatPhone (v : JVal) : Except String JVal :=
  if !v.truthy then .ok v
  else match v with
    | .str s =>
      let cleaned := s.toList.filter Char.isDigit
      if cleaned.length = 10 then
        .ok (.str ("(" ++ (cleaned.take 3).asString ++ ") "
          ++ ((cleaned.drop 3).take 3).asString ++ "-" ++ (cleaned.drop 6).asString))
      else if cleaned.length = 11 ∧ cleaned.headD ' ' = '1' then
        .ok (.str ("+1 (" ++ ((cleaned.drop 1).take 3).asString ++ ") "
          ++ ((cleaned.drop 4).take 3).asString ++ "-" ++ (cleaned.drop 7).asString))
      else .ok (.str s)
    | _ => .error "phone.replace is not a function"

/-- Model of s.trim(): strip whitespace from both ends. -/
def trimChars (cs : List Char) : List Char :=
  (cs.dropWhile Char.isWhitespace).reverse.dropWhile Char.isWhitespace |>.reverse

/-- Embedding of normalizeEmail: lowercase then trim a string; a truthy
non-string throws. -/
def normalizeEmail (v : JVal) : Except String JVal :=
  if !v.truthy then .ok v
  else match v with
    | .str s => .ok (.str (trimChars (lowerStr s).toList).asString)
    | _ => .error "email.toLowerCase is not a function"

/-- Collapse every maximal run of whitespace characters to one space,
modelling replace with a global one-or-more-whitespace pattern. -/
def collapseWs : List Char → List Char
  | [] => []
  | [c] => if c.isWhitespace then [' '] else [c]
  | c1 :: c2 :: cs =>
    if c1.isWhitespace && c2.isWhitespace then collapseWs (c2 :: cs)
    else (if c1.isWhitespace then ' ' else c1) :: collapseWs (c2 :: cs)

/-- Embedding of normalizeName: trim then collapse internal whitespace; a
truthy non-string throws. -/
def normalizeName (v : JVal) : Except String JVal :=
  if !v.truthy then .ok v
  else match v with
    | .str s => .ok (.str (collapseWs (trimChars s.toList)).asString)
    | _ => .error "name.trim is not a function"

/-- Model of parseFloat on a string: skip leading whitespace, read an
optional sign, then the longest digits-dot-digits prefix; none models NaN.
Exponent suffixes are not modelled (no verified claim exercises them). -/
def jsParseFloat (s : String) : Option ℚ :=
  let body := s.toList.dropWhile Char.isWhitespace
  let readUnsigned : List Char → Option ℚ := fun cs =>
    let intPart := cs.takeWhile Char.isDigit
    let rest := cs.dropWhile Char.isDigit
    let fracPart := match rest with
      | '.' :: rest2 => rest2.takeWhile Char.isDigit
      | _ => []
    if intPart = [] && fracPart = [] then none
    else some ((digitsVal intPart : ℚ) + (digitsVal fracPart : ℚ) / (10 ^ fracPart.length))
  match body with
  | '-' :: rest => (readUnsigned rest).map (fun q => -q)
  | '+' :: rest => readUnsigned rest
  | cs => readUnsigned cs

/-- Embedding of formatCurrency: falsy input returned as is; otherwise the
value is parsed with parseFloat (a number parses to itself, a truthy boolean
or NaN parses to NaN), NaN returns the input unchanged, and a number is
rounded to two decimals.  This function never throws. -/
def formatCurrency (v : JVal) : Except String JVal :=
  if !v.truthy then .ok v
  else
    let numAmount : Option ℚ := match v with
      | .str s => jsParseFloat s
      | .num q => some q
      | _ => none
    match numAmount with
    | none => .ok v
    | some q => .ok (.num (round2 q))

/-- Embedding of formatDate.  Date parsing and ISO rendering are
environment dependent in JavaScript, so they are passed in as parameters:
parseDate returns the epoch timestamp of a date string or none for an
invalid date, renderDate produces the YYYY-MM-DD rendering of a timestamp.
The source wraps the whole body in try/catch and returns the input on any
failure, so this function never throws: an invalid date makes toISOString
throw a RangeError, which the catch turns into the unchanged input. -/
def formatDate (parseDate : String → Option Int) (renderDate : Int → String)
    (v : JVal) : Except String JVal :=
  if !v.truthy then .ok v
  else match v with
    | .str s =>
      match parseDate s with
      | some t => .ok (.str (renderDate t))
      | none => .ok v
    | .num q =>
      if -8640000000000000 ≤ q ∧ q ≤ 8640000000000000 then .ok (.str (renderDate ⌊q⌋))
      else .ok v
    | .bool _ => .ok (.str (renderDate 1))
    | _ => .ok v

/-- Embedding of applyTransformation: falsy values are returned untouched;
otherwise the rule string is dispatched to the matching transformer,
directMapping and unknown rules being the identity; a thrown transformation
error is caught and the original value returned. -/
def applyTransformation (parseDate : String → Option Int) (renderDate : Int → String)
    (value : JVal) (rule : String) : JVal :=
  if !value.truthy then value
  else
    let attempt : Except String JVal :=
      if rule = "formatPhone(value)" then formatPhone value
      else if rule = "normalizeEmail(value)" then normalizeEmail value
      else if rule = "formatDate(value)" then formatDate parseDate renderDate value
      else if rule = "formatCurrency(value)" then formatCurrency value
      else if rule = "normalizeName(value)" then normalizeName value
      else .ok value
    match attempt with
    | .ok v => v
    | .error _ => value

/-- Does a result of a transformer model a thrown exception? -/
def throwsErr (r : Except String JVal) : Bool :=
  match r with
  | .error _ => true
  | .ok _ => false

instance : DecidableEq (Except String JVal) := fun x y =>
  match x, y with
  | .ok a, .ok b =>
    if h : a = b then .isTrue (congrArg Except.ok h)
    else .isFalse (fun hh => h (Except.ok.inj hh))
  | .error a, .error b =>
    if h : a = b then .isTrue (congrArg Except.error h)
    else .isFalse (fun hh => h (Except.error.inj hh))
  | .ok _, .error _ => .isFalse (fun hh => Except.noConfusion hh)
  | .error _, .ok _ => .isFalse (fun hh => Except.noConfusion hh)

/-! ### Field mapper (integrationService.js, applyFieldMappings) -/

/-- One field mapping entry; a missing transformationRule property is none
(and an empty-string rule is falsy, like in the source). -/
structure FieldMapping where
  sourceField : String
  targetField : String
  transformationRule : Option String
deriving DecidableEq

/-- Truthiness of the transformationRule property. -/
def ruleTruthy : Option String → Bool
  | some s => !(s == "")
  | none => false

/-- The value one mapping writes to its target field: the source field value,
transformed when a transformation rule is set and the value is not nullish.
The catch clause of the source (falling back to the untransformed value) is
unreachable because applyTransformation already catches internally. -/
def mapOneField (parseDate : String → Option Int) (renderDate : Int → String)
    (record : String → JVal) (m : FieldMapping) : JVal :=
  let sourceValue := record m.sourceField
  if ruleTruthy m.transformationRule && !sourceValue.isNullish then
    applyTransformation parseDate renderDate sourceValue (m.transformationRule.getD "")
  else sourceValue

/-- The assignment step of applyFieldMappings: write the mapped value of m
into the target field of the accumulated record. -/
def afmStep (parseDate : String → Option Int) (renderDate : Int → String)
    (record : String → JVal) (acc : String → JVal) (m : FieldMapping) : String → JVal :=
  fun f => if f = m.targetField then mapOneField parseDate renderDate record m else acc f

/-- Embedding of applyFieldMappings: starting from the empty object (every
field reads as undefined), each mapping in list order assigns its value to
its target field, later assignments overwriting earlier ones. -/
def applyFieldMappings (parseDate : String → Option Int) (renderDate : Int → String)
    (record : String → JVal) (mappings : List FieldMapping) : String → JVal :=
  mappings.foldl (afmStep parseDate renderDate record) (fun _ => JVal.undef)

/-! ### Similarity scorer (aiService.js, calculateFieldSimilarity and
calculateLevenshteinDistance) -/

/-- Embedding of calculateLevenshteinDistance: the source fills the standard
dynamic-programming matrix whose entry (i, j) is the edit distance between
the first i characters of one string and the first j of the other, with unit
insert, delete and substitute costs; this recurrence computes the same
distance suffix-first. -/
def lev : List Char → List Char → Nat
  | [], ys => ys.length
  | xs, [] => xs.length
  | x :: xs, y :: ys =>
    if x = y then lev xs ys
    else 1 + min (lev xs ys) (min (lev (x :: xs) ys) (lev xs (y :: ys)))
termination_by xs ys => xs.length + ys.length

/-- The alias-table membership test of branches 2 and 3 of the scorer: some
entry of the match list equals the field case-insensitively. -/
def aliasHit (ms : List String) (f : String) : Bool :=
  ms.any (fun m => lowerStr m == lowerStr f)

/-- Embedding of calculateFieldSimilarity: first matching branch wins -
case-insensitive exact match 1.0, target in source aliases 0.95, source in
target aliases 0.95, case-insensitive substring either way 0.8, else one
minus the Levenshtein distance of the lowercased names over the longer
original length floored at zero - rounded to two decimals. -/
def calculateFieldSimilarity (sourceField targetField : String)
    (sourceMatches targetMatches : List String) : ℚ :=
  round2
    (if lowerStr sourceField = lowerStr targetField then 1
     else if aliasHit sourceMatches targetField then 95 / 100
     else if aliasHit targetMatches sourceField then 95 / 100
     else if jsIncludes (lowerStr sourceField) (lowerStr targetField)
         || jsIncludes (lowerStr targetField) (lowerStr sourceField) then 8 / 10
     else
       max 0 (1 - (lev (lowerStr sourceField).toList (lowerStr targetField).toList : ℚ)
         / ((max sourceField.length targetField.length : Nat) : ℚ)))

/-! ### Conflict resolver (aiService.js, initializeConflictResolutionRules,
resolveConflicts, resolveIndividualConflict, resolveHighPriorityField) -/

/-- One detected conflict.  A dataType of none models a conflict object with
no dataType property, for which the destructuring default String applies. -/
structure Conflict where
  field : String
  sourceValue : JVal
  targetValue : JVal
  dataType : Option String
deriving DecidableEq

/-- One resolution outcome.  The wall-clock timestamp property of the source
is not modelled. -/
structure Resolution where
  field : String
  sourceValue : JVal
  targetValue : JVal
  resolvedValue : JVal
  strategy : String
  confidence : ℚ
  reasoning : String
  resolved : Bool

/-- The aggregate returned by resolveConflicts. -/
structure ResolutionBatch where
  strategy : String
  totalConflicts : Nat
  resolvedConflicts : Nat
  resolutions : List Resolution
  confidence : ℚ

/-- The String merge rule: concatenate with a separator when both are
truthy, else whichever is truthy.  Every data-type rule takes the four
arguments (source, target, sourceTime, targetTime) of the source closures;
call sites that pass only two leave the times undefined. -/
def stringMergeRule (s t _st _tt : JVal) : JVal :=
  if s.truthy && t.truthy then .str (s.toJsString ++ " | " ++ t.toJsString)
  else jsOr s t

/-- The Number merge rule: Math.max of source-or-0 and target-or-0. -/
def numberMergeRule (s t _st _tt : JVal) : JVal :=
  jsMax (jsOr s (.num 0)) (jsOr t (.num 0))

/-- The Date merge rule: whichever compares greater. -/
def dateMergeRule (s t _st _tt : JVal) : JVal := if jsGt s t then s else t

/-- The Boolean merge rule: logical or. -/
def boolMergeRule (s t _st _tt : JVal) : JVal := jsOr s t

/-- The source-wins rule. -/
def sourceWinsRule (s _t _st _tt : JVal) : JVal := s

/-- The target-wins rule. -/
def targetWinsRule (_s t _st _tt : JVal) : JVal := t

/-- The latest-wins rule: selects by comparing the update timestamps; when
the call site passes no timestamps both are undefined, the comparison is
false and the target is selected. -/
def latestWinsRule (s t st tt : JVal) : JVal := if jsGt st tt then s else t

/-- Embedding of the dataTypes rule table: dataTypes[dt]?.[key], none when
either lookup misses. -/
def rulesFor (dt key : String) : Option (JVal → JVal → JVal → JVal → JVal) :=
  if dt = "String" then
    if key = "merge" then some stringMergeRule
    else if key = "source_wins" then some sourceWinsRule
    else if key = "target_wins" then some targetWinsRule
    else if key = "latest_wins" then some latestWinsRule
    else none
  else if dt = "Number" then
    if key = "merge" then some numberMergeRule
    else if key = "source_wins" then some sourceWinsRule
    else if key = "target_wins" then some targetWinsRule
    else if key = "latest_wins" then some latestWinsRule
    else none
  else if dt = "Date" then
    if key = "merge" then some dateMergeRule
    else if key = "source_wins" then some sourceWinsRule
    else if key = "target_wins" then some targetWinsRule
    else if key = "latest_wins" then some latestWinsRule
    else none
  else if dt = "Boolean" then
    if key = "merge" then some boolMergeRule
    else if key = "source_wins" then some sourceWinsRule
    else if key = "target_wins" then some targetWinsRule
    else if key = "latest_wins" then some latestWinsRule
    else none
  else none

/-- Embedding of the fieldPriority table followed by the or-medium default. -/
def fieldPriorityOf (f : String) : String :=
  if f = "Email" then "high"
  else if f = "Phone" then "high"
  else if f = "Name" then "high"
  else if f = "Amount" then "high"
  else if f = "CloseDate" then "high"
  else if f = "Description" then "medium"
  else if f = "Notes" then "low"
  else "medium"

/-- A resolution strategy as passed to resolveConflicts.  The four named
constructors are the documented strategies; other covers any further
strategy string the caller might pass. -/
inductive Strategy where
  | sourceWins
  | targetWins
  | latestWins
  | aiResolve
  | other (s : String)
deriving DecidableEq

/-- The raw strategy string. -/
def Strategy.name : Strategy → String
  | .sourceWins => "source-wins"
  | .targetWins => "target-wins"
  | .latestWins => "latest-wins"
  | .aiResolve => "ai-resolve"
  | .other s => s

/-- The rule-table key for a strategy: the strategy string with dashes
replaced by underscores. -/
def Strategy.key : Strategy → String
  | .sourceWins => "source_wins"
  | .targetWins => "target_wins"
  | .latestWins => "latest_wins"
  | .aiResolve => "ai_resolve"
  | .other s => (s.toList.map (fun c => if c = '-' then '_' else c)).asString

/-- Split a character list at every occurrence of a separator character. -/
def splitOnChar (c : Char) : List Char → List (List Char)
  | [] => [[]]
  | x :: xs =>
    let r := splitOnChar c xs
    if x == c then [] :: r
    else
      match r with
      | [] => [[x]]
      | h :: t => (x :: h) :: t

/-- Embedding of the email validity regular expression: one run of
non-whitespace non-at characters, an at sign, then a domain containing a dot
that is neither its first nor its last character, with no whitespace and no
further at sign.  The regex test coerces its argument to a string. -/
def validEmailString (s : String) : Bool :=
  match splitOnChar '@' s.toList with
  | [lpc, dc] =>
    !(lpc == []) && lpc.all (fun c => !c.isWhitespace)
      && dc.all (fun c => !c.isWhitespace)
      && ((dc.dropLast.drop 1).contains '.')
  | _ => false

/-- Embedding of validateEmail: falsy values are invalid, otherwise the
string coercion is tested against the email pattern. -/
def validateEmail (v : JVal) : Bool :=
  if !v.truthy then false else validEmailString v.toJsString

/-- The .length property of a value: defined for strings only (no arrays
flow through this code path); none models undefined. -/
def jsLength : JVal → Option Nat
  | .str s => some s.toList.length
  | _ => none

/-- The JavaScript `a >= b` comparison on two .length reads: false whenever
either side is undefined. -/
def optGe (a b : Option Nat) : Bool :=
  match a, b with
  | some x, some y => decide (y ≤ x)
  | _, _ => false

/-- The digit count of (v || empty-string).replace(non-digits, empty) -
throws a TypeError when the or-result is a truthy non-string. -/
def digitCountE (v : JVal) : Except String Nat :=
  match jsOr v (.str "") with
  | .str s => .ok (s.toList.filter Char.isDigit).length
  | _ => .error "replace is not a function"

/-- The tail of resolveHighPriorityField after the Email block: a Phone
field prefers the value with more digits (and can throw on a truthy
non-string), a Name field prefers the longer string, anything else returns
the source value. -/
def resolveHPRest (field : String) (s t : JVal) : Except String JVal :=
  if jsIncludes field "Phone" then
    match digitCountE s with
    | .error e => .error e
    | .ok ds =>
      match digitCountE t with
      | .error e => .error e
      | .ok dt => .ok (if dt ≤ ds then s else t)
  else if jsIncludes field "Name" then
    .ok (if optGe (jsLength (jsOr s (.str ""))) (jsLength (jsOr t (.str ""))) then s else t)
  else .ok s

/-- Embedding of resolveHighPriorityField.  An Email field prefers the valid
email, then the longer one; when neither is valid control falls out of the
Email block and continues with the Phone and Name checks (resolveHPRest),
as it does for non-Email fields. -/
def resolveHighPriorityField (field : String) (s t : JVal) (_dataType : String) :
    Except String JVal :=
  if jsIncludes field "Email" then
    if validateEmail s && !validateEmail t then .ok s
    else if !validateEmail s && validateEmail t then .ok t
    else if validateEmail s && validateEmail t then
      .ok (if optGe (jsLength s) (jsLength t) then s else t)
    else resolveHPRest field s t
  else resolveHPRest field s t

/-- The try block of resolveIndividualConflict, producing the resolved
value, confidence and reasoning or a thrown error.  A missing dataType
defaults to String.  Under ai-resolve a high-priority field uses
resolveHighPriorityField with confidence 0.9, any other field the data-type
merge rule (String merge when the type is unknown) with confidence 0.8.
Under any other strategy the data-type rule for the strategy key is looked
up, falling back to the String table, with confidence 0.7; calling a missing
rule throws. -/
def resolveAttempt (c : Conflict) (strategy : Strategy) : Except String (JVal × ℚ × String) :=
  if strategy.name = "ai-resolve" then
    if fieldPriorityOf c.field = "high" then
      match resolveHighPriorityField c.field c.sourceValue c.targetValue
          (c.dataType.getD "String") with
      | .ok v => .ok (v, 9 / 10, "AI resolved high-priority field using advanced conflict resolution")
      | .error e => .error e
    else
      .ok ((rulesFor (c.dataType.getD "String") "merge").getD stringMergeRule
          c.sourceValue c.targetValue .undef .undef, 8 / 10,
        "AI resolved using data type-specific merge strategy")
  else
    match (rulesFor (c.dataType.getD "String") strategy.key).orElse
        (fun _ => rulesFor "String" strategy.key) with
    | some m => .ok (m c.sourceValue c.targetValue .undef .undef, 7 / 10,
        "Resolved using " ++ strategy.name ++ " strategy")
    | none => .error "resolutionMethod is not a function"

/-- Embedding of resolveIndividualConflict: package a successful attempt
into a Resolution with resolved true, and degrade a thrown error to the
fallback Resolution carrying the source value, resolved false and
confidence 0.5. -/
def resolveIndividualConflict (c : Conflict) (strategy : Strategy) : Resolution :=
  match resolveAttempt c strategy with
  | .ok (rv, conf, reason) =>
    { field := c.field, sourceValue := c.sourceValue, targetValue := c.targetValue,
      resolvedValue := rv, strategy := strategy.name, confidence := conf,
      reasoning := reason, resolved := true }
  | .error e =>
    { field := c.field, sourceValue := c.sourceValue, targetValue := c.targetValue,
      resolvedValue := c.sourceValue, strategy := "fallback", confidence := 1 / 2,
      reasoning := "Fallback resolution due to error: " ++ e, resolved := false }

/-- Embedding of calculateOverallConfidence: 0 for no resolutions, else the
mean confidence rounded to two decimals. -/
def calculateOverallConfidence (rs : List Resolution) : ℚ :=
  if rs.length = 0 then 0
  else round2 ((rs.foldl (fun sum r => sum + r.confidence) 0) / (rs.length : ℚ))

/-- Embedding of resolveConflicts: resolve each conflict in order and
aggregate.  The outer catch of the source is unreachable because
resolveIndividualConflict catches internally, so it is not modelled. -/
def resolveConflicts (conflicts : List Conflict) (strategy : Strategy) : ResolutionBatch :=
  let rs := conflicts.map (fun c => resolveIndividualConflict c strategy)
  { strategy := strategy.name,
    totalConflicts := conflicts.length,
    resolvedConflicts := (rs.filter (fun r => r.resolved)).length,
    resolutions := rs,
    confidence := calculateOverallConfidence rs }

/-! ### Conflict application (integrationService.js, applyConflictResolution) -/

/-- The per-resolution step of applyConflictResolution: a resolution with
resolved true overwrites its field, any other leaves the record alone. -/
def acrStep (acc : String → JVal) (r : Resolution) : String → JVal :=
  if r.resolved then (fun f => if f = r.field then r.resolvedValue else acc f) else acc

/-- Embedding of applyConflictResolution: for each resolution with resolved
true, in list order, the mapped record field named by the resolution is
overwritten with the resolved value. -/
def applyConflictResolution (record : String → JVal) (resolutions : List Resolution) :
    String → JVal :=
  resolutions.foldl acrStep record

/-! ### Batch sync engine (integrationService.js, performSync, processBatch,
createBatches)

The per-record pipeline inside processBatch (field mapping, AI enrichment,
conflict detection with a random roll, conflict resolution, and the
destination write with a random failure roll) either succeeds, possibly
counting some conflicts, or throws, in which case the record is counted as
failed with its error message recorded.  That nondeterministic pipeline is
abstracted by a per-record outcome function; the possibility that an await
inside the per-batch body rejects as a whole (the batchError catch of
performSync) is abstracted by a per-batch exception function.  The
validation, authentication and fetch phases that precede the batch loop are
external-collaborator calls whose failure aborts the run before any
BatchResult exists, so the model covers the batch-processing phase. -/

/-- A source record as the engine accounting sees it: the Id property used
in per-record error entries. -/
structure SrcRecord where
  Id : String
deriving DecidableEq

/-- Outcome of the per-record pipeline: success (with the number of
conflicts the record adds to the conflicts counter) or a thrown error. -/
inductive RecordOutcome where
  | success (conflictsCounted : Nat)
  | failure (msg : String)

/-- An entry of the errors list of a BatchResult: a per-record entry with
the record Id, or a per-batch entry with the 1-based batch number and the
record count of the batch. -/
inductive SyncError where
  | recordError (recordId : String) (msg : String)
  | batchError (batchNumber : Nat) (msg : String) (recordCount : Nat)

/-- The local accumulator of processBatch. -/
structure PBResult where
  successful : Nat
  failed : Nat
  conflicts : Nat
  errors : List SyncError

/-- The per-record accounting step of processBatch: a success increments
successful (and adds the conflicts counted), a thrown error increments
failed and appends a per-record error entry. -/
def pbStep (proc : SrcRecord → RecordOutcome) (res : PBResult) (r : SrcRecord) : PBResult :=
  match proc r with
  | .success k =>
    { res with successful := res.successful + 1, conflicts := res.conflicts + k }
  | .failure msg =>
    { res with failed := res.failed + 1, errors := res.errors ++ [.recordError r.Id msg] }

/-- Embedding of processBatch: every record is tried in order and processing
always continues past a per-record failure. -/
def processBatch (proc : SrcRecord → RecordOutcome) (batch : List SrcRecord) : PBResult :=
  batch.foldl (pbStep proc) ⟨0, 0, 0, []⟩

/-- The BatchResult accumulator of performSync.  successRate is written only
by the final step; the source stores it as a toFixed(2) string, modelled
here as the rational that string denotes (0 before finalization and when
totalRecords is 0).  processingTime is wall clock and not modelled. -/
structure SyncResults where
  totalRecords : Nat
  processedRecords : Nat
  successfulRecords : Nat
  failedRecords : Nat
  conflicts : Nat
  errors : List SyncError
  successRate : ℚ

/-- One iteration of the batch loop of performSync on the indexed batch ib:
when the batch body completes, processedRecords grows by the batch length
and the processBatch tallies are added; when it throws, failedRecords grows
by the batch length and one per-batch error entry with the 1-based batch
number is appended - processedRecords is not touched in that branch. -/
def syncStep (proc : SrcRecord → RecordOutcome) (thrown : Nat → List SrcRecord → Option String)
    (acc : SyncResults) (ib : Nat × List SrcRecord) : SyncResults :=
  match thrown ib.1 ib.2 with
  | none =>
    let br := processBatch proc ib.2
    { acc with
        processedRecords := acc.processedRecords + ib.2.length,
        successfulRecords := acc.successfulRecords + br.successful,
        failedRecords := acc.failedRecords + br.failed,
        conflicts := acc.conflicts + br.conflicts,
        errors := acc.errors ++ br.errors }
  | some msg =>
    { acc with
        failedRecords := acc.failedRecords + ib.2.length,
        errors := acc.errors ++ [.batchError (ib.1 + 1) msg ib.2.length] }

/-- The batch loop of performSync over a list of index-batch pairs. -/
def runBatches (proc : SrcRecord → RecordOutcome) (thrown : Nat → List SrcRecord → Option String)
    (ibs : List (Nat × List SrcRecord)) (acc : SyncResults) : SyncResults :=
  ibs.foldl (syncStep proc thrown) acc

/-- The results object as performSync initializes it, totalRecords being the
source record count. -/
def initResults (records : List SrcRecord) : SyncResults :=
  ⟨records.length, 0, 0, 0, 0, [], 0⟩

/-- Fuel-bounded helper for createBatches; the fuel bounds the number of
loop iterations, each of which consumes at least one element. -/
def createBatchesAux {α : Type} : Nat → List α → Nat → List (List α)
  | 0, _, _ => []
  | _, [], _ => []
  | fuel + 1, l, n => l.take n :: createBatchesAux fuel (l.drop n) n

/-- Embedding of createBatches: successive slices of size n.  The source
loop does not terminate for n = 0; performSync always calls it with
n = 50, and the model returns the empty list in the unreachable n = 0
case. -/
def createBatches {α : Type} (l : List α) (n : Nat) : List (List α) :=
  if n = 0 then [] else createBatchesAux l.length l n

/-- The finalization step of performSync: successRate is the success
percentage rounded to two decimals (the toFixed(2) string of the source,
read as a rational), or 0 when totalRecords is 0. -/
def finalizeResults (r : SyncResults) : SyncResults :=
  { r with successRate :=
      if 0 < r.totalRecords then round2 ((r.successfulRecords : ℚ) / (r.totalRecords : ℚ) * 100)
      else 0 }

/-- The batch-processing and finalization phases of performSync: split the
fetched records into batches of 50, run the batch loop, and finalize. -/
def performSyncModel (proc : SrcRecord → RecordOutcome)
    (thrown : Nat → List SrcRecord → Option String) (records : List SrcRecord) : SyncResults :=
  finalizeResults (runBatches proc thrown (createBatches records 50).enum (initResults records))

/-- Sum of the recordCount fields over the per-batch error entries of an
errors list; per-record entries contribute nothing. -/
def batchFailedSum : List SyncError → Nat
  | [] => 0
  | .batchError _ _ rc :: es => rc + batchFailedSum es
  | .recordError _ _ :: es => batchFailedSum es

/-- Is this errors entry a per-batch entry naming the given 1-based batch
number and record count? -/
def referencesBatch (e : SyncError) (i rc : Nat) : Bool :=
  match e with
  | .batchError j _ rcj => j == i && rcj == rc
  | .recordError _ _ => false

/-- Is this errors entry any per-batch entry at all? -/
def isBatchEntry (e : SyncError) : Bool :=
  match e with
  | .batchError _ _ _ => true
  | .recordError _ _ => false

/-- Is this dataType string one of the four keys of the data-type rule
table? -/
def knownDataType (dt : String) : Bool :=
  dt == "String" || dt == "Number" || dt == "Date" || dt == "Boolean"

/-- Does this conflict carry no usable dataType: the property is missing
(none) or its value is not one of String, Number, Date, Boolean? -/
def dataTypeUnknown (c : Conflict) : Bool :=
  match c.dataType with
  | none => true
  | some s => !knownDataType s

/-- The accounting relation maintained by the batch loop: the success and
failure counters exceed processedRecords by exactly the records of the
batches whose whole-batch exception was caught. -/
def resultsInv (r : SyncResults) : Prop :=
  r.successfulRecords + r.failedRecords = r.processedRecords + batchFailedSum r.errors

/-! ### Concrete scenario data used by witnesses and counterexamples -/

/-- A batch behaviour in which no batch-level exception is ever thrown. -/
def noThrowB : Nat → List SrcRecord → Option String := fun _ _ => none

/-- A batch behaviour in which every batch body throws. -/
def throwAllB : Nat → List SrcRecord → Option String := fun _ _ => some "Destination unreachable"

/-- A per-record pipeline in which every record succeeds. -/
def procAllOk : SrcRecord → RecordOutcome := fun _ => .success 0

/-- A one-record source data set. -/
def recsOne : List SrcRecord := [⟨"r1"⟩]

/-- 120 source records: the 50 records of batch 1 carry Id a, the 50 of
batch 2 carry Id b, the 20 of batch 3 carry Id c. -/
def recs120 : List SrcRecord :=
  List.replicate 50 ⟨"a"⟩ ++ List.replicate 50 ⟨"b"⟩ ++ List.replicate 20 ⟨"c"⟩

/-- The destination writer fails (throws) for every record of the second
batch of recs120 and succeeds for all others. -/
def procBatch2Fails : SrcRecord → RecordOutcome := fun r =>
  if r.Id = "b" then .failure "Target system error" else .success 0

/-- A three-record source data set. -/
def recsThree : List SrcRecord := [⟨"a"⟩, ⟨"b"⟩, ⟨"c"⟩]

/-- A per-record pipeline in which only the record with Id a succeeds. -/
def procOnlyA : SrcRecord → RecordOutcome := fun r =>
  if r.Id = "a" then .success 0 else .failure "Target system error"

/-- A degenerate date parser (every string is an invalid date), used to
instantiate the date-environment parameters in witnesses. -/
def parseNone : String → Option Int := fun _ => none

/-- A constant date renderer, used to instantiate witnesses. -/
def renderConst : Int → String := fun _ => "1970-01-01"

/-! ## Theorems -/

/-- A result known to be ok does not model a thrown exception. -/
theorem throwsErr_eq_false_of_ok (r : Except String JVal) (h : ∃ v, r = .ok v) :
    throwsErr r = false := by
  rcases h with ⟨v, rfl⟩
  rfl

/-- Splitting batchFailedSum over an append. -/
theorem batchFailedSum_append (a b : List SyncError) :
    batchFailedSum (a ++ b) = batchFailedSum a + batchFailedSum b := by
  induction a with
  | nil => simp [batchFailedSum]
  | cons e es ih => cases e <;> simp [batchFailedSum, ih] <;> omega

/-- Over any batch, pbStep adds exactly the batch length to the success and
failure counters combined. -/
theorem pbFold_sum (proc : SrcRecord → RecordOutcome) (batch : List SrcRecord) :
    ∀ acc : PBResult,
      (batch.foldl (pbStep proc) acc).successful + (batch.foldl (pbStep proc) acc).failed
        = acc.successful + acc.failed + batch.length := by
  induction batch with
  | nil => intro acc; simp
  | cons r rs ih =>
    intro acc
    simp only [List.foldl_cons]
    rw [ih]
    unfold pbStep
    rcases proc r with k | msg <;> simp <;> omega

/-- processBatch accounts every record of the batch exactly once. -/
theorem processBatch_sum (proc : SrcRecord → RecordOutcome) (batch : List SrcRecord) :
    (processBatch proc batch).successful + (processBatch proc batch).failed = batch.length := by
  have h := pbFold_sum proc batch ⟨0, 0, 0, []⟩
  simpa [processBatch] using h

/-- processBatch emits only per-record error entries. -/
theorem pbFold_noBatchEntry (proc : SrcRecord → RecordOutcome) (batch : List SrcRecord) :
    ∀ acc : PBResult,
      batchFailedSum (batch.foldl (pbStep proc) acc).errors = batchFailedSum acc.errors := by
  induction batch with
  | nil => intro acc; simp
  | cons r rs ih =>
    intro acc
    simp only [List.foldl_cons]
    rw [ih]
    unfold pbStep
    rcases proc r with k | msg <;> simp [batchFailedSum_append, batchFailedSum]

/-- The per-batch error entries of a processBatch result sum to zero. -/
theorem processBatch_noBatchEntry (proc : SrcRecord → RecordOutcome) (batch : List SrcRecord) :
    batchFailedSum (processBatch proc batch).errors = 0 := by
  have h := pbFold_noBatchEntry proc batch ⟨0, 0, 0, []⟩
  simpa [processBatch, batchFailedSum] using h

/-- One iteration of the batch loop preserves the accounting relation. -/
theorem syncStep_inv (proc : SrcRecord → RecordOutcome)
    (thrown : Nat → List SrcRecord → Option String) (acc : SyncResults)
    (ib : Nat × List SrcRecord) (h : resultsInv acc) :
    resultsInv (syncStep proc thrown acc ib) := by
  unfold resultsInv at h ⊢
  unfold syncStep
  rcases ht : thrown ib.1 ib.2 with _ | msg
  · have hs := processBatch_sum proc ib.2
    have hb := processBatch_noBatchEntry proc ib.2
    simp [batchFailedSum_append]
    omega
  · simp [batchFailedSum_append, batchFailedSum]
    omega

/-- The whole batch loop preserves the accounting relation. -/
theorem runBatches_inv (proc : SrcRecord → RecordOutcome)
    (thrown : Nat → List SrcRecord → Option String) :
    ∀ (ibs : List (Nat × List SrcRecord)) (acc : SyncResults),
      resultsInv acc → resultsInv (runBatches proc thrown ibs acc) := by
  intro ibs
  induction ibs with
  | nil => intro acc h; simpa [runBatches] using h
  | cons ib rest ih =>
    intro acc h
    have h1 := syncStep_inv proc thrown acc ib h
    simpa [runBatches, List.foldl_cons] using ih (syncStep proc thrown acc ib) h1

/-- C1 (amended): at every point of the batch loop of performSync - that
is, after any prefix of the batch list has been accounted for - the
accumulator satisfies successfulRecords + failedRecords = processedRecords
plus the recordCount sum of the per-batch error entries caught so far.  The
unqualified equality of the original claim holds exactly while no
whole-batch exception has been caught, because the batchError catch adds
the batch length to failedRecords and errors but not to processedRecords. -/
theorem c1_sync_accounting (proc : SrcRecord → RecordOutcome)
    (thrown : Nat → List SrcRecord → Option String) (records : List SrcRecord)
    (pre post : List (Nat × List SrcRecord))
    (hsplit : (createBatches records 50).enum = pre ++ post) :
    (runBatches proc thrown pre (initResults records)).successfulRecords
        + (runBatches proc thrown pre (initResults records)).failedRecords
      = (runBatches proc thrown pre (initResults records)).processedRecords
        + batchFailedSum (runBatches proc thrown pre (initResults records)).errors := by
  have h0 : resultsInv (initResults records) := by
    simp [resultsInv, initResults, batchFailedSum]
  exact runBatches_inv proc thrown pre (initResults records) h0

/-- Witness for C1 (amended): the one-batch run over a single record,
with the full batch list as the accounted prefix. -/
theorem c1_sync_accounting_witness :
    (createBatches recsOne 50).enum = (createBatches recsOne 50).enum ++ [] ∧
    ((runBatches procAllOk noThrowB ((createBatches recsOne 50).enum) (initResults recsOne)).successfulRecords
        + (runBatches procAllOk noThrowB ((createBatches recsOne 50).enum) (initResults recsOne)).failedRecords
      = (runBatches procAllOk noThrowB ((createBatches recsOne 50).enum) (initResults recsOne)).processedRecords
        + batchFailedSum (runBatches procAllOk noThrowB ((createBatches recsOne 50).enum) (initResults recsOne)).errors) :=
  ⟨by simp, c1_sync_accounting procAllOk noThrowB recsOne ((createBatches recsOne 50).enum) [] (by simp)⟩

/-- Counterexample for C1 as stated: in a run over one record whose single
batch throws as a whole, the returned BatchResult has successfulRecords +
failedRecords = 1 but processedRecords = 0, so the claimed equality fails
under a whole-batch exception. -/
theorem c1_counterexample :
    (performSyncModel procAllOk throwAllB recsOne).successfulRecords
        + (performSyncModel procAllOk throwAllB recsOne).failedRecords
      ≠ (performSyncModel procAllOk throwAllB recsOne).processedRecords := by
  decide

set_option maxRecDepth 200000 in
/-- Counterexample for C3 as stated: in the 120-record run whose destination
writer fails (throws) for every record of the second batch, the returned
BatchResult does have successfulRecords = 70 and failedRecords = 50, but its
errors list contains no entry at all referencing batch number 2 with
recordCount 50 - the 50 failures are recorded as per-record entries. -/
theorem c3_counterexample :
    (performSyncModel procBatch2Fails noThrowB recs120).successfulRecords = 70 ∧
    (performSyncModel procBatch2Fails noThrowB recs120).failedRecords = 50 ∧
    ((performSyncModel procBatch2Fails noThrowB recs120).errors.filter
      (fun e => referencesBatch e 2 50)).length = 0 := by
  refine ⟨?_, ?_, ?_⟩ <;> decide

set_option maxRecDepth 200000 in
/-- C3 (amended): for the 120-record run with batch size 50 (batches of 50,
50 and 20) in which the destination writer fails for every record of the
second batch and succeeds for all others, the returned BatchResult has
successfulRecords = 70, failedRecords = 50, processedRecords = 120, and its
errors list consists of 50 per-record entries, one per failed record of
batch 2; a single per-batch entry with recordCount 50 would arise only if
the whole batch body threw, not from per-record writer failures. -/
theorem c3_batch2_failure_run :
    (performSyncModel procBatch2Fails noThrowB recs120).successfulRecords = 70 ∧
    (performSyncModel procBatch2Fails noThrowB recs120).failedRecords = 50 ∧
    (performSyncModel procBatch2Fails noThrowB recs120).processedRecords = 120 ∧
    (performSyncModel procBatch2Fails noThrowB recs120).errors.length = 50 ∧
    (performSyncModel procBatch2Fails noThrowB recs120).errors.all
      (fun e => match e with
        | .recordError id _ => id == "b"
        | .batchError _ _ _ => false) = true := by
  refine ⟨?_, ?_, ?_, ?_, ?_⟩ <;> decide

/-- C6 (amended): when performSync completes, the returned BatchResult has
successRate equal to successfulRecords / totalRecords * 100 rounded to two
decimal places (the toFixed(2) rendering of the source, read as a rational),
and 0 when totalRecords is 0; the exact unrounded equality of the original
claim holds only when the percentage needs at most two decimals. -/
theorem c6_success_rate (proc : SrcRecord → RecordOutcome)
    (thrown : Nat → List SrcRecord → Option String) (records : List SrcRecord) :
    (performSyncModel proc thrown records).successRate =
      if 0 < (performSyncModel proc thrown records).totalRecords then
        round2 (((performSyncModel proc thrown records).successfulRecords : ℚ)
          / ((performSyncModel proc thrown records).totalRecords : ℚ) * 100)
      else 0 := by
  unfold performSyncModel finalizeResults
  simp

/-- Counterexample for C6 as stated: in a completed run with 1 success out
of 3 records the stored successRate is 33.33 (the two-decimal rounding),
which differs from the exact value 100/3. -/
theorem c6_counterexample :
    (performSyncModel procOnlyA noThrowB recsThree).successRate ≠
      ((performSyncModel procOnlyA noThrowB recsThree).successfulRecords : ℚ)
        / ((performSyncModel procOnlyA noThrowB recsThree).totalRecords : ℚ) * 100 := by
  have h1 : (performSyncModel procOnlyA noThrowB recsThree).successfulRecords = 1 := by decide
  have h2 : (performSyncModel procOnlyA noThrowB recsThree).totalRecords = 3 := by decide
  have hR1 : (runBatches procOnlyA noThrowB (createBatches recsThree 50).enum
      (initResults recsThree)).successfulRecords = 1 := by decide
  have hR2 : (runBatches procOnlyA noThrowB (createBatches recsThree 50).enum
      (initResults recsThree)).totalRecords = 3 := by decide
  have h3 : (performSyncModel procOnlyA noThrowB recsThree).successRate
      = round2 ((1 : ℚ) / 3 * 100) := by
    unfold performSyncModel finalizeResults
    simp [hR1, hR2]
  rw [h1, h2, h3]
  have hfl : (⌊(1 : ℚ) / 3 * 100 * 100 + 1 / 2⌋ : ℤ) = 3333 := by
    rw [Int.floor_eq_iff] <;> norm_num
  unfold round2
  rw [hfl]
  norm_num

/-- C4 (amended): each transformer is total on string inputs and on falsy
inputs, and formatDate and formatCurrency (and the direct mapping) are total
on every value; formatPhone returns its string input unchanged whenever the
digit-stripped form is neither 10 digits nor 11 digits starting with 1; and
although formatPhone, normalizeEmail and normalizeName throw a TypeError on
a truthy non-string input, applyTransformation catches that error and
returns the input value unchanged, so the pipeline never propagates a
transformer exception. -/
theorem c4_transformer_totality (parseDate : String → Option Int)
    (renderDate : Int → String) (s : String) :
    throwsErr (formatPhone (.str s)) = false
    ∧ throwsErr (normalizeEmail (.str s)) = false
    ∧ throwsErr (normalizeName (.str s)) = false
    ∧ (∀ v : JVal, throwsErr (formatDate parseDate renderDate v) = false)
    ∧ (∀ v : JVal, throwsErr (formatCurrency v) = false)
    ∧ ((s.toList.filter Char.isDigit).length ≠ 10 →
        ¬((s.toList.filter Char.isDigit).length = 11
            ∧ (s.toList.filter Char.isDigit).headD ' ' = '1') →
        formatPhone (.str s) = .ok (.str s))
    ∧ (∀ v : JVal, applyTransformation parseDate renderDate v "directMapping(value)" = v)
    ∧ (∀ v : JVal, v.truthy = true → (∀ t, v ≠ .str t) →
        ∀ rule ∈ (["formatPhone(value)", "normalizeEmail(value)",
            "normalizeName(value)"] : List String),
          applyTransformation parseDate renderDate v rule = v) := by
  refine ⟨?_, ?_, ?_, ?_, ?_, ?_, ?_, ?_⟩
  · apply throwsErr_eq_false_of_ok
    simp only [formatPhone]
    split
    · exact ⟨_, rfl⟩
    · split
      · exact ⟨_, rfl⟩
      · split
        · exact ⟨_, rfl⟩
        · exact ⟨_, rfl⟩
  · apply throwsErr_eq_false_of_ok
    simp only [normalizeEmail]
    split
    · exact ⟨_, rfl⟩
    · exact ⟨_, rfl⟩
  · apply throwsErr_eq_false_of_ok
    simp only [normalizeName]
    split
    · exact ⟨_, rfl⟩
    · exact ⟨_, rfl⟩
  · intro v
    rcases v with s2 | q | b | _ | _ | _ <;> simp only [formatDate] <;> split <;>
      first
        | rfl
        | (rename_i h; split <;> rfl)
        | (rename_i h; rcases h2 : parseDate s2 with _ | t <;> simp [h2, throwsErr])
  · intro v
    rcases v with s2 | q | b | _ | _ | _ <;> simp only [formatCurrency] <;> split <;>
      first
        | rfl
        | (rcases h2 : jsParseFloat s2 with _ | t <;> simp [h2, throwsErr])
  · intro h10 h11
    simp only [formatPhone]
    split <;> simp_all
  · intro v
    simp only [applyTransformation]
    split
    · rfl
    · simp
  · intro v hv hstr rule hrule
    simp only [applyTransformation]
    rw [if_neg (by simp [hv])]
    rcases v with s2 | q | b | _ | _ | _
    · exact absurd rfl (hstr s2)
    all_goals
      simp only [List.mem_cons, List.not_mem_nil, or_false] at hrule
    all_goals
      rcases hrule with rfl | rfl | rfl <;>
        simp [formatPhone, normalizeEmail, normalizeName, JVal.truthy] at hv ⊢ <;> simp [hv]

/-- Witness for C4 (amended): formatPhone leaves a malformed string alone,
and applyTransformation swallows the TypeError a truthy non-string raises
inside formatPhone, returning the input. -/
theorem c4_transformer_totality_witness :
    (("abc-def".toList.filter Char.isDigit).length ≠ 10
      ∧ ¬((("abc-def".toList.filter Char.isDigit).length = 11)
            ∧ ("abc-def".toList.filter Char.isDigit).headD ' ' = '1'))
    ∧ formatPhone (.str "abc-def") = .ok (.str "abc-def")
    ∧ (JVal.bool true).truthy = true
    ∧ applyTransformation parseNone renderConst (.bool true) "formatPhone(value)" = .bool true :=
  ⟨⟨by decide, by decide⟩,
   (c4_transformer_totality parseNone renderConst "abc-def").2.2.2.2.2.1 (by decide) (by decide),
   by decide,
   (c4_transformer_totality parseNone renderConst "abc-def").2.2.2.2.2.2.2 (.bool true)
     (by decide) (fun t h => JVal.noConfusion h) "formatPhone(value)" (by decide)⟩

/-- Counterexample for C4 as stated: formatPhone does throw (a TypeError
from calling .replace on a non-string) when given the truthy boolean true,
so the transformers are not total over all scalar values. -/
theorem c4_counterexample : throwsErr (formatPhone (.bool true)) = true := by decide

/-- Looking up an unknown data type in the rule table misses. -/
theorem rulesFor_unknown (s : String) (h : knownDataType s = false) (key : String) :
    rulesFor s key = none := by
  unfold rulesFor
  unfold knownDataType at h
  split_ifs <;> simp_all

/-- For an unknown data type the or-else lookup falls back to the String
table. -/
theorem lookup_unknown (s key : String) (h : knownDataType s = false) :
    (rulesFor s key).orElse (fun _ => rulesFor "String" key) = rulesFor "String" key := by
  rw [rulesFor_unknown s h]
  rfl

/-- For every data type the latest-wins lookup resolves to the shared
latest-wins rule. -/
theorem latest_lookup (dt : String) :
    (rulesFor dt "latest_wins").orElse (fun _ => rulesFor "String" "latest_wins")
      = some latestWinsRule := by
  by_cases h1 : dt = "String"
  · subst h1; rfl
  by_cases h2 : dt = "Number"
  · subst h2; rfl
  by_cases h3 : dt = "Date"
  · subst h3; rfl
  by_cases h4 : dt = "Boolean"
  · subst h4; rfl
  have hk : knownDataType dt = false := by
    simp [knownDataType, h1, h2, h3, h4]
  rw [lookup_unknown dt "latest_wins" hk]
  rfl

/-- C2 (amended): for every conflict resolved under the latest-wins
strategy with update timestamps unavailable (the call site passes only the
two values, leaving both timestamps undefined), the resolved value equals
the conflict targetValue for every dataType - not the sourceValue - because
undefined > undefined is false and the rule then selects the target; the
resolution is marked resolved. -/
theorem c2_latest_wins_selects_target (c : Conflict) :
    (resolveIndividualConflict c .latestWins).resolvedValue = c.targetValue
    ∧ (resolveIndividualConflict c .latestWins).resolved = true := by
  constructor <;>
    (simp only [resolveIndividualConflict, resolveAttempt, Strategy.key]
     rw [if_neg (by decide)]
     rw [latest_lookup]
     try rfl)

/-- Counterexample for C2 as stated: a latest-wins resolution without
timestamps selects the targetValue b, not the sourceValue a. -/
theorem c2_counterexample :
    (resolveIndividualConflict ⟨"X", .str "a", .str "b", some "String"⟩ .latestWins).resolvedValue
      ≠ (⟨"X", .str "a", .str "b", some "String"⟩ : Conflict).sourceValue := by
  decide

/-- C9: for every conflict whose dataType is missing or not one of String,
Number, Date, Boolean, resolving under source-wins, target-wins or
latest-wins, or under ai-resolve with a non-high-priority field, produces
exactly the resolution the String data-type rule table produces, and the
resolution has resolved = true. -/
theorem c9_unknown_datatype_string_fallback (c : Conflict) (strategy : Strategy)
    (hdt : dataTypeUnknown c = true)
    (hstrat : strategy = .sourceWins ∨ strategy = .targetWins ∨ strategy = .latestWins
      ∨ (strategy = .aiResolve ∧ fieldPriorityOf c.field ≠ "high")) :
    resolveIndividualConflict c strategy
      = resolveIndividualConflict { c with dataType := some "String" } strategy
    ∧ (resolveIndividualConflict c strategy).resolved = true := by
  obtain ⟨f, sv, tv, dtv⟩ := c
  simp only [dataTypeUnknown] at hdt
  have hcond : Strategy.aiResolve.name = "ai-resolve" := rfl
  rcases dtv with _ | s
  · refine ⟨rfl, ?_⟩
    rcases hstrat with rfl | rfl | rfl | ⟨rfl, hpr⟩
    · rfl
    · rfl
    · rfl
    · simp only [resolveIndividualConflict, resolveAttempt]
      rw [if_pos hcond]
      rw [if_neg (show ¬fieldPriorityOf f = "high" from hpr)]
  · simp only [Bool.not_eq_eq_eq_not, Bool.not_true] at hdt
    rcases hstrat with rfl | rfl | rfl | ⟨rfl, hpr⟩
    · constructor <;>
        (simp only [resolveIndividualConflict, resolveAttempt, Option.getD_some]
         rw [lookup_unknown s _ hdt]
         try rfl)
    · constructor <;>
        (simp only [resolveIndividualConflict, resolveAttempt, Option.getD_some]
         rw [lookup_unknown s _ hdt]
         try rfl)
    · constructor <;>
        (simp only [resolveIndividualConflict, resolveAttempt, Option.getD_some]
         rw [lookup_unknown s _ hdt]
         try rfl)
    · constructor
      · simp only [resolveIndividualConflict, resolveAttempt, Option.getD_some]
        rw [rulesFor_unknown s hdt]
        rfl
      · simp only [resolveIndividualConflict, resolveAttempt, Option.getD_some]
        rw [if_pos hcond]
        rw [if_neg (show ¬fieldPriorityOf f = "high" from hpr)]

/-- Witness for C9: a conflict with the unknown dataType Currency under
source-wins resolves exactly as under dataType String, successfully. -/
theorem c9_unknown_datatype_string_fallback_witness :
    dataTypeUnknown ⟨"FieldX", .str "x", .str "y", some "Currency"⟩ = true ∧
    (resolveIndividualConflict ⟨"FieldX", .str "x", .str "y", some "Currency"⟩ .sourceWins
        = resolveIndividualConflict ⟨"FieldX", .str "x", .str "y", some "String"⟩ .sourceWins
      ∧ (resolveIndividualConflict ⟨"FieldX", .str "x", .str "y", some "Currency"⟩
          .sourceWins).resolved = true) :=
  ⟨by decide,
   c9_unknown_datatype_string_fallback ⟨"FieldX", .str "x", .str "y", some "Currency"⟩
     .sourceWins (by decide) (Or.inl rfl)⟩

theorem jsOr_not_nullish (s t : JVal) (hs : s.isNullish = false) (ht : t.isNullish = false) :
    (jsOr s t).isNullish = false := by
  unfold jsOr
  split <;> assumption

theorem jsMax_not_nullish (a b : JVal) : (jsMax a b).isNullish = false := by
  unfold jsMax
  split <;> rfl

theorem rule_not_nullish (rule : JVal → JVal → JVal → JVal → JVal)
    (hr : rule = stringMergeRule ∨ rule = numberMergeRule ∨ rule = dateMergeRule
      ∨ rule = boolMergeRule ∨ rule = sourceWinsRule ∨ rule = targetWinsRule
      ∨ rule = latestWinsRule)
    (s t x y : JVal) (hs : s.isNullish = false) (ht : t.isNullish = false) :
    (rule s t x y).isNullish = false := by
  rcases hr with rfl | rfl | rfl | rfl | rfl | rfl | rfl
  · unfold stringMergeRule
    split
    · rfl
    · exact jsOr_not_nullish s t hs ht
  · exact jsMax_not_nullish _ _
  · unfold dateMergeRule
    split <;> assumption
  · exact jsOr_not_nullish s t hs ht
  · exact hs
  · exact ht
  · unfold latestWinsRule
    split <;> assumption

theorem rulesFor_mem (dt key : String) (r : JVal → JVal → JVal → JVal → JVal)
    (h : rulesFor dt key = some r) :
    r = stringMergeRule ∨ r = numberMergeRule ∨ r = dateMergeRule
      ∨ r = boolMergeRule ∨ r = sourceWinsRule ∨ r = targetWinsRule
      ∨ r = latestWinsRule := by
  unfold rulesFor at h
  split_ifs at h <;> simp_all <;> tauto

theorem lookup_mem (dt key : String) (r : JVal → JVal → JVal → JVal → JVal)
    (h : (rulesFor dt key).orElse (fun _ => rulesFor "String" key) = some r) :
    r = stringMergeRule ∨ r = numberMergeRule ∨ r = dateMergeRule
      ∨ r = boolMergeRule ∨ r = sourceWinsRule ∨ r = targetWinsRule
      ∨ r = latestWinsRule := by
  rcases h1 : rulesFor dt key with _ | r2
  · rw [h1] at h
    exact rulesFor_mem "String" key r (by simpa [Option.orElse] using h)
  · rw [h1] at h
    simp [Option.orElse] at h
    subst h
    exact rulesFor_mem dt key r2 h1

theorem hpRest_result (f : String) (s t v : JVal) (h : resolveHPRest f s t = .ok v) :
    v = s ∨ v = t := by
  unfold resolveHPRest at h
  by_cases hp : jsIncludes f "Phone" = true
  · rw [if_pos hp] at h
    rcases hds : digitCountE s with e | ds <;> rw [hds] at h
    · cases h
    · rcases hdt : digitCountE t with e | dt2 <;> rw [hdt] at h
      · cases h
      · injection h with h2
        subst h2
        split <;> simp
  · rw [if_neg hp] at h
    by_cases hn : jsIncludes f "Name" = true
    · rw [if_pos hn] at h
      injection h with h2
      subst h2
      split <;> simp
    · rw [if_neg hn] at h
      exact Or.inl (Except.ok.inj h).symm

theorem hp_result (f : String) (s t : JVal) (dt : String) (v : JVal)
    (h : resolveHighPriorityField f s t dt = .ok v) : v = s ∨ v = t := by
  unfold resolveHighPriorityField at h
  by_cases he : jsIncludes f "Email" = true
  · rw [if_pos he] at h
    by_cases h1 : (validateEmail s && !validateEmail t) = true
    · rw [if_pos h1] at h
      exact Or.inl (Except.ok.inj h).symm
    · rw [if_neg h1] at h
      by_cases h2 : (!validateEmail s && validateEmail t) = true
      · rw [if_pos h2] at h
        exact Or.inr (Except.ok.inj h).symm
      · rw [if_neg h2] at h
        by_cases h3 : (validateEmail s && validateEmail t) = true
        · rw [if_pos h3] at h
          injection h with h4
          subst h4
          split <;> simp
        · rw [if_neg h3] at h
          exact hpRest_result f s t v h
  · rw [if_neg he] at h
    exact hpRest_result f s t v h

theorem attempt_value (c : Conflict) (strategy : Strategy) (rv : JVal) (conf : ℚ) (reason : String)
    (hs : c.sourceValue.isNullish = false) (ht : c.targetValue.isNullish = false)
    (ha : resolveAttempt c strategy = .ok (rv, conf, reason)) :
    rv.isNullish = false := by
  unfold resolveAttempt at ha
  by_cases hai : strategy.name = "ai-resolve"
  · rw [if_pos hai] at ha
    by_cases hhigh : fieldPriorityOf c.field = "high"
    · rw [if_pos hhigh] at ha
      rcases hr : resolveHighPriorityField c.field c.sourceValue c.targetValue
          (c.dataType.getD "String") with e | v <;> rw [hr] at ha
      · cases ha
      · simp only [Except.ok.injEq, Prod.mk.injEq] at ha
        obtain ⟨h4, -, -⟩ := ha
        rw [← h4]
        rcases hp_result _ _ _ _ _ hr with h5 | h5 <;> rw [h5] <;> assumption
    · rw [if_neg hhigh] at ha
      simp only [Except.ok.injEq, Prod.mk.injEq] at ha
      obtain ⟨h4, -, -⟩ := ha
      rw [← h4]
      rcases hm : rulesFor (c.dataType.getD "String") "merge" with _ | r
      · exact rule_not_nullish stringMergeRule (Or.inl rfl) c.sourceValue c.targetValue
          JVal.undef JVal.undef hs ht
      · exact rule_not_nullish r (rulesFor_mem _ _ r hm) c.sourceValue c.targetValue
          JVal.undef JVal.undef hs ht
  · rw [if_neg hai] at ha
    rcases hl : (rulesFor (c.dataType.getD "String") strategy.key).orElse
        (fun _ => rulesFor "String" strategy.key) with _ | m <;> rw [hl] at ha
    · cases ha
    · simp only [Except.ok.injEq, Prod.mk.injEq] at ha
      obtain ⟨h4, -, -⟩ := ha
      rw [← h4]
      exact rule_not_nullish m (lookup_mem _ _ m hl) c.sourceValue c.targetValue
        JVal.undef JVal.undef hs ht

theorem resolve_value_not_nullish (c : Conflict) (strategy : Strategy)
    (hs : c.sourceValue.isNullish = false) (ht : c.targetValue.isNullish = false)
    (hres : (resolveIndividualConflict c strategy).resolved = true) :
    (resolveIndividualConflict c strategy).resolvedValue.isNullish = false := by
  unfold resolveIndividualConflict at hres ⊢
  rcases ha : resolveAttempt c strategy with e | ⟨rv, conf, reason⟩
  · rw [ha] at hres
    simp at hres
  · exact attempt_value c strategy rv conf reason hs ht ha

/-- C5 (amended): for every list of conflicts all of whose sourceValue and
targetValue are non-null (not null or undefined), and every strategy, every
Resolution in the ResolutionBatch returned by resolveConflicts that has
resolved = true has a non-null resolvedValue.  Without that hypothesis the
claim fails: the wins and merge rules can return a null input value with
resolved = true. -/
theorem c5_resolved_not_nullish (conflicts : List Conflict) (strategy : Strategy)
    (h : ∀ c ∈ conflicts, c.sourceValue.isNullish = false ∧ c.targetValue.isNullish = false) :
    ∀ r ∈ (resolveConflicts conflicts strategy).resolutions,
      r.resolved = true → r.resolvedValue.isNullish = false := by
  intro r hr hres
  simp only [resolveConflicts, List.mem_map] at hr
  obtain ⟨c, hc, rfl⟩ := hr
  exact resolve_value_not_nullish c strategy (h c hc).1 (h c hc).2 hres

/-- Witness for C5 (amended): a one-conflict batch with non-null values
under source-wins. -/
theorem c5_resolved_not_nullish_witness :
    (∀ c ∈ ([⟨"X", .str "a", .str "b", some "String"⟩] : List Conflict),
      c.sourceValue.isNullish = false ∧ c.targetValue.isNullish = false) ∧
    (∀ r ∈ (resolveConflicts [⟨"X", .str "a", .str "b", some "String"⟩]
        .sourceWins).resolutions,
      r.resolved = true → r.resolvedValue.isNullish = false) :=
  ⟨by decide, c5_resolved_not_nullish _ _ (by decide)⟩

/-- Counterexample for C5 as stated: a conflict whose sourceValue is null,
resolved under source-wins, yields a Resolution with resolved = true and a
null (nullish) resolvedValue. -/
theorem c5_counterexample :
    ((resolveConflicts [⟨"X", JVal.null, JVal.null, some "String"⟩] .sourceWins).resolutions.any
      (fun r => r.resolved && r.resolvedValue.isNullish)) = true := by
  decide

/-- The per-resolution overwrite step leaves alone every field that no
resolved resolution names (helper for C10). -/
theorem acr_frame (resolutions : List Resolution) :
    ∀ (record : String → JVal) (f : String),
      (∀ r ∈ resolutions, r.resolved = true → r.field ≠ f) →
      applyConflictResolution record resolutions f = record f := by
  induction resolutions with
  | nil => intro record f h; rfl
  | cons r rest ih =>
    intro record f h
    have hstep : applyConflictResolution record (r :: rest)
        = rest.foldl acrStep (acrStep record r) := rfl
    rw [hstep]
    have h2 : ∀ r2 ∈ rest, r2.resolved = true → r2.field ≠ f :=
      fun r2 hr2 => h r2 (List.mem_cons_of_mem r hr2)
    have := ih (acrStep record r) f h2
    unfold applyConflictResolution at this
    rw [this]
    unfold acrStep
    split
    · rename_i hres
      have hne := h r (List.mem_cons_self r rest) hres
      simp [hne]
      intro hc
      exact absurd hc.symm hne
    · rfl

/-- C10: applyConflictResolution overwrites only the fields named by a
resolution with resolved = true; every field with no resolution, or whose
resolutions all have resolved = false, keeps the value the mapped record
had before resolution was applied. -/
theorem c10_conflict_application_frame (record : String → JVal)
    (resolutions : List Resolution) (f : String)
    (h : ∀ r ∈ resolutions, r.resolved = true → r.field ≠ f) :
    applyConflictResolution record resolutions f = record f :=
  acr_frame resolutions record f h

/-- Witness for C10: a record with a resolved resolution for field B and an
unresolved one for field A keeps its value at field A. -/
theorem c10_conflict_application_frame_witness :
    (∀ r ∈ ([⟨"B", .null, .null, .str "y", "source-wins", 7 / 10, "picked source", true⟩,
        ⟨"A", .null, .null, .str "z", "fallback", 1 / 2, "failed", false⟩] : List Resolution),
      r.resolved = true → r.field ≠ "A") ∧
    applyConflictResolution (fun _ => JVal.str "v")
      [⟨"B", .null, .null, .str "y", "source-wins", 7 / 10, "picked source", true⟩,
       ⟨"A", .null, .null, .str "z", "fallback", 1 / 2, "failed", false⟩] "A"
      = (fun _ => JVal.str "v") "A" :=
  ⟨by decide,
   c10_conflict_application_frame (fun _ => JVal.str "v") _ "A" (by decide)⟩

/-- A run of mappings none of which targets the field leaves the
accumulated value at that field unchanged (helper for C7). -/
theorem afm_untargeted (parseDate : String → Option Int) (renderDate : Int → String)
    (record : String → JVal) (ms : List FieldMapping) :
    ∀ (acc : String → JVal) (f : String),
      (∀ m ∈ ms, m.targetField ≠ f) →
      ms.foldl (afmStep parseDate renderDate record) acc f = acc f := by
  induction ms with
  | nil => intro acc f h; rfl
  | cons m rest ih =>
    intro acc f h
    simp only [List.foldl_cons]
    rw [ih _ f (fun m2 hm2 => h m2 (List.mem_cons_of_mem m hm2))]
    unfold afmStep
    have := h m (List.mem_cons_self m rest)
    simp [this]
    intro hc
    exact absurd hc.symm this

/-- C7 (fan-out): for every record and every mapping list containing
exactly two mappings with the same targetField and different sourceField
(the mappings m1 and m2, every other mapping targeting a different field),
the value at that targetField in the mapped record equals the value
produced by applying only the later of the two mappings in list order. -/
theorem c7_fanout_last_wins (parseDate : String → Option Int) (renderDate : Int → String)
    (record : String → JVal) (pre mid post : List FieldMapping) (m1 m2 : FieldMapping)
    (ht : m1.targetField = m2.targetField)
    (hs : m1.sourceField ≠ m2.sourceField)
    (hpre : ∀ m ∈ pre, m.targetField ≠ m2.targetField)
    (hmid : ∀ m ∈ mid, m.targetField ≠ m2.targetField)
    (hpost : ∀ m ∈ post, m.targetField ≠ m2.targetField) :
    applyFieldMappings parseDate renderDate record (pre ++ m1 :: mid ++ m2 :: post) m2.targetField
      = applyFieldMappings parseDate renderDate record [m2] m2.targetField := by
  unfold applyFieldMappings
  rw [show pre ++ m1 :: mid ++ m2 :: post = (pre ++ m1 :: mid) ++ m2 :: post by simp]
  rw [List.foldl_append]
  simp only [List.foldl_cons]
  rw [afm_untargeted parseDate renderDate record post _ _ hpost]
  simp only [List.foldl_nil]
  unfold afmStep
  simp

/-- Witness for C7: two direct mappings from different source fields into
the same target field T; the result at T is that of the later mapping. -/
theorem c7_fanout_last_wins_witness :
    ((⟨"a", "T", none⟩ : FieldMapping).targetField
        = (⟨"b", "T", none⟩ : FieldMapping).targetField
      ∧ (⟨"a", "T", none⟩ : FieldMapping).sourceField
        ≠ (⟨"b", "T", none⟩ : FieldMapping).sourceField) ∧
    applyFieldMappings parseNone renderConst (fun _ => JVal.str "v")
        [⟨"a", "T", none⟩, ⟨"b", "T", none⟩] "T"
      = applyFieldMappings parseNone renderConst (fun _ => JVal.str "v")
        [⟨"b", "T", none⟩] "T" :=
  ⟨⟨by decide, by decide⟩,
   c7_fanout_last_wins parseNone renderConst (fun _ => JVal.str "v") [] [] []
     ⟨"a", "T", none⟩ ⟨"b", "T", none⟩ (by decide) (by decide)
     (by simp) (by simp) (by simp)⟩

/-- The edit distance is symmetric in its two arguments (strong induction
on the total length; helper for C8). -/
theorem lev_symm_aux : ∀ (n : Nat) (xs ys : List Char), xs.length + ys.length ≤ n →
    lev xs ys = lev ys xs := by
  intro n
  induction n with
  | zero =>
    intro xs ys h
    cases xs with
    | nil =>
      cases ys with
      | nil => rfl
      | cons y t => simp at h
    | cons x t => simp at h
  | succ n ih =>
    intro xs ys h
    cases xs with
    | nil =>
      cases ys with
      | nil => rfl
      | cons y t => simp [lev]
    | cons x xs2 =>
      cases ys with
      | nil => simp [lev]
      | cons y ys2 =>
        simp only [lev]
        by_cases hxy : x = y
        · subst hxy
          rw [if_pos rfl, if_pos rfl]
          exact ih xs2 ys2 (by simp only [List.length_cons] at h; omega)
        · rw [if_neg hxy, if_neg (Ne.symm hxy)]
          have h1 := ih xs2 ys2 (by simp only [List.length_cons] at h ⊢; omega)
          have h2 := ih (x :: xs2) ys2 (by simp only [List.length_cons] at h ⊢; omega)
          have h3 := ih xs2 (y :: ys2) (by simp only [List.length_cons] at h ⊢; omega)
          rw [h1, h2, h3]
          omega

/-- Symmetry of the Levenshtein distance. -/
theorem lev_symm (xs ys : List Char) : lev xs ys = lev ys xs :=
  lev_symm_aux (xs.length + ys.length) xs ys le_rfl

/-- C8: the Similarity Scorer is symmetric whenever neither alias branch
(2 or 3) applies in either direction - branch 2 of one direction is branch
3 of the other, so the two hypotheses cover all four alias tests - because
the exact-match and substring conditions are symmetric and the Levenshtein
branch is symmetric by lev_symm and commutativity of max. -/
theorem c8_scorer_symmetric (a b : String) (aA aB : List String)
    (h1 : aliasHit aA b = false) (h2 : aliasHit aB a = false) :
    calculateFieldSimilarity a b aA aB = calculateFieldSimilarity b a aB aA := by
  unfold calculateFieldSimilarity
  congr 1
  have n1 : ¬(aliasHit aA b = true) := by simp [h1]
  have n2 : ¬(aliasHit aB a = true) := by simp [h2]
  by_cases hex : lowerStr a = lowerStr b
  · rw [if_pos hex, if_pos hex.symm]
  · have hex2 : ¬(lowerStr b = lowerStr a) := fun hh => hex hh.symm
    rw [if_neg hex, if_neg hex2]
    rw [if_neg n1, if_neg n2, if_neg n2, if_neg n1]
    by_cases hsub : (jsIncludes (lowerStr a) (lowerStr b)
        || jsIncludes (lowerStr b) (lowerStr a)) = true
    · have hsub2 : (jsIncludes (lowerStr b) (lowerStr a)
          || jsIncludes (lowerStr a) (lowerStr b)) = true := by
        rwa [Bool.or_comm] at hsub
      rw [if_pos hsub, if_pos hsub2]
    · have hsub2 : ¬(jsIncludes (lowerStr b) (lowerStr a)
          || jsIncludes (lowerStr a) (lowerStr b)) = true := by
        rw [Bool.or_comm]
        exact hsub
      rw [if_neg hsub, if_neg hsub2]
      rw [lev_symm ((lowerStr a).toList) ((lowerStr b).toList)]
      rw [Nat.max_comm a.length b.length]


/-- Witness for C8: the pair abc and abcd resolves via the substring branch
in both directions and scores symmetrically. -/
theorem c8_scorer_symmetric_witness :
    aliasHit ([] : List String) "abcd" = false ∧
    aliasHit ([] : List String) "abc" = false ∧
    calculateFieldSimilarity "abc" "abcd" [] [] = calculateFieldSimilarity "abcd" "abc" [] [] :=
  ⟨by decide, by decide, c8_scorer_symmetric "abc" "abcd" [] [] (by decide) (by decide)⟩

end MultiOrgSync
